import Mathlib

/-!
Shallow embedding of the RPC routing core of `ethers_cloudflare_Workers`
(`src/unnamed/part_002`, the rpcHandler module): endpoint liveness probing
(`isRpcAvailable`), endpoint selection (`getRpcUrl`), the retrying RPC
dispatcher (`handleRpcRequest`), the contract call executor
(`handleContractCall`) and result normalization (`processBigInt`).

Network effects (HTTP responses, provider operations) are modelled as
explicit environment parameters; the `Math.random()` shuffle is modelled
as an arbitrary function whose output is assumed to be a permutation of
its input.
-/

namespace RpcHandler

/-- JavaScript-style values as they occur in contract-call results:
scalars (bigint, string, number, boolean, null), ordered sequences
(arrays) and keyed structures (plain objects). -/
inductive Value : Type where
  | bigint (n : Int)
  | str (s : String)
  | num (n : Int)
  | bool (b : Bool)
  | null
  | arr (elems : List Value)
  | obj (fields : List (String × Value))

mutual

/-- `processBigInt` from `handleContractCall` (src/unnamed/part_002
lines 389-402): recursively converts every bigint to its decimal string,
maps over arrays, rebuilds objects field by field, and returns every
other value unchanged. -/
def processBigInt : Value → Value
  | .bigint n => .str (toString n)
  | .arr elems => .arr (processBigIntList elems)
  | .obj fields => .obj (processBigIntFields fields)
  | .str s => .str s
  | .num n => .num n
  | .bool b => .bool b
  | .null => .null

/-- `value.map(item => processBigInt(item))` over an array's elements. -/
def processBigIntList : List Value → List Value
  | [] => []
  | v :: vs => processBigInt v :: processBigIntList vs

/-- the `for (const key in value)` loop rebuilding an object. -/
def processBigIntFields : List (String × Value) → List (String × Value)
  | [] => []
  | (k, v) :: fs => (k, processBigInt v) :: processBigIntFields fs

end

mutual

/-- Does a bigint occur anywhere inside the value? -/
def hasBigInt : Value → Bool
  | .bigint _ => true
  | .arr elems => hasBigIntList elems
  | .obj fields => hasBigIntFields fields
  | _ => false

def hasBigIntList : List Value → Bool
  | [] => false
  | v :: vs => hasBigInt v || hasBigIntList vs

def hasBigIntFields : List (String × Value) → Bool
  | [] => false
  | (_, v) :: fs => hasBigInt v || hasBigIntFields fs

end

/-! ### Endpoint health prober (`isRpcAvailable`, src/unnamed/part_002 lines 23-96)

The outcome of the `axios.post` liveness call is modelled explicitly:
axios either resolves with a response (status, the `id` field of the
response body if any, and whether `data.result` is defined), or rejects
with an HTTP error response carrying a status, a timeout
(`ECONNABORTED`), a network error (`error.request` set), or some other
error. -/

/-- Possible outcomes of the probe's HTTP POST. -/
inductive ProbeOutcome : Type where
  | response (status : Nat) (respId : Option Nat) (hasResult : Bool)
  | httpError (status : Nat)
  | timeout
  | networkError
  | otherError (msg : String)
deriving Repr, DecidableEq

/-- `isRpcAvailable` of src/unnamed/part_002: returns `false` on an id
mismatch, `true` when the status is 200 and `data.result` is defined,
`false` on every other response, and `false` from the catch-all on a
timeout, an HTTP error status, a network error or any other error —
it never rethrows. `sentId` is the freshly generated `dynamicId` sent
with the request. -/
def isRpcAvailable (sentId : Nat) (o : ProbeOutcome) : Bool :=
  match o with
  | .response status respId hasResult =>
    if respId != some sentId then false
    else if status == 200 && hasResult then true
    else false
  | .httpError _ => false
  | .timeout => false
  | .networkError => false
  | .otherError _ => false

/-! ### Chain registry and endpoint selection (`getRpcUrl`,
src/unnamed/part_002 lines 104-167) -/

/-- One entry of a chain's `rpc` array (only the `url` field is used). -/
structure RpcRef : Type where
  url : String
deriving Repr, DecidableEq

/-- One entry of `rpcs.json`: chain id, alternate network id, display
name, and the candidate endpoint list. -/
structure ChainConfig : Type where
  chainId : Nat
  networkId : Nat
  name : String
  rpc : List RpcRef
deriving Repr, DecidableEq

/-- Errors thrown by `getRpcUrl`. -/
inductive RpcError : Type where
  | configNotFound (chainId : Nat)
  | noAvailableNodes (name : String) (chainId : Nat)
deriving Repr, DecidableEq

/-- `rpcConfig.find(c => c.chainId === chainId || c.networkId === chainId)`. -/
def findChain (rpcConfig : List ChainConfig) (chainId : Nat) : Option ChainConfig :=
  rpcConfig.find? (fun c => c.chainId == chainId || c.networkId == chainId)

/-- `checkNodes` inside `getRpcUrl`: the first 3 shuffled URLs are
probed concurrently, `Promise.allSettled` preserves their order, and
the scan over the settled results returns the first available URL. -/
def checkNodes (avail : String → Bool) (shuffledUrls : List String) : Option String :=
  (shuffledUrls.take 3).find? avail

/-- `getRpcUrl` of src/unnamed/part_002. The liveness of each URL is
the environment `avail` (the Boolean verdict of `isRpcAvailable` for
that URL); the `[...rpcUrls].sort(() => Math.random() - 0.5)` shuffle
is the environment `shuffle`, assumed in the theorems to permute its
input. After the concurrent head check, the remaining URLs are probed
sequentially; if none is available the no-available-nodes error is
thrown. -/
def getRpcUrl (rpcConfig : List ChainConfig) (avail : String → Bool)
    (shuffle : List String → List String) (chainId : Nat) : Except RpcError String :=
  match findChain rpcConfig chainId with
  | none => .error (.configNotFound chainId)
  | some chain =>
    let rpcUrls := chain.rpc.map (fun r => r.url)
    let shuffledUrls := shuffle rpcUrls
    match checkNodes avail shuffledUrls with
    | some availableUrl => .ok availableUrl
    | none =>
      match (shuffledUrls.drop 3).find? avail with
      | some fallbackUrl => .ok fallbackUrl
      | none => .error (.noAvailableNodes chain.name chainId)

/-- The URLs the sequential fallback loop probes: every URL up to and
including the first available one (all of them when none is available). -/
def seqProbes (avail : String → Bool) : List String → List String
  | [] => []
  | u :: us => if avail u then [u] else u :: seqProbes avail us

/-- The URLs `getRpcUrl` probes for a given shuffled candidate list:
the whole concurrent head (all of its probes are started and awaited
via `Promise.allSettled`), then — only if no head probe succeeded —
the sequential fallback prefix of the tail. -/
def probedUrls (avail : String → Bool) (shuffledUrls : List String) : List String :=
  let head := shuffledUrls.take 3
  if (head.find? avail).isSome then head
  else head ++ seqProbes avail (shuffledUrls.drop 3)

/-! ### Error classification and the bounded retry loop
(`handleRpcRequest`, src/unnamed/part_002 lines 186-307)

The retry policy classifies a thrown error by substring-matching its
`message` (`error.message.includes(...)`). -/

/-- Does the pattern occur at the start of the text? (`String.startsWith`
on character lists, kept first-order for kernel evaluation.) -/
def charsStartWith : List Char → List Char → Bool
  | [], _ => true
  | _ :: _, [] => false
  | p :: ps, c :: cs => p == c && charsStartWith ps cs

/-- Does the pattern occur anywhere in the text? -/
def charsContain (pat : List Char) : List Char → Bool
  | [] => pat.isEmpty
  | c :: cs => charsStartWith pat (c :: cs) || charsContain pat cs

/-- JavaScript `msg.includes(pat)`. -/
def containsSub (msg pat : String) : Bool :=
  charsContain pat.toList msg.toList

/-- The node-error classification of `handleRpcRequest`
(src/unnamed/part_002 lines 289-294): the six message substrings that
cause a switch to the next node. -/
def isNodeErrorRpc (msg : String) : Bool :=
  containsSub msg ("406 Not Acceptable") || containsSub msg ("402 Payment Required") ||
  containsSub msg ("network error") || containsSub msg ("timeout") ||
  containsSub msg ("400 Bad Request") || containsSub msg ("SERVER_ERROR")

/-- The node-error classification of `handleContractCall`
(src/unnamed/part_002 lines 411-417): the same six substrings plus the
`JsonRpcProvider failed to detect network` condition. -/
def isNodeErrorContract (msg : String) : Bool :=
  containsSub msg ("406 Not Acceptable") || containsSub msg ("402 Payment Required") ||
  containsSub msg ("network error") || containsSub msg ("timeout") ||
  containsSub msg ("JsonRpcProvider failed to detect network") ||
  containsSub msg ("400 Bad Request") || containsSub msg ("SERVER_ERROR")

/-- The `for (let attempt = 1; attempt <= maxRetries; attempt++)` loop
shared by `handleRpcRequest` and `handleContractCall`: `outcome k` is
the result of the body of attempt `k` (endpoint selection plus the
upstream operation). On success the loop returns; on an error whose
message the classifier accepts it records the error and continues; on
any other error it rethrows at once. Falling out of the loop rethrows
the last recorded error (the `Option.getD` default corresponds to
JavaScript's `throw lastError` with `lastError` still `null`, which is
unreachable for a positive retry budget). -/
def retryGo (isNodeError : String → Bool) (outcome : Nat → Except String α) :
    Nat → Nat → Option String → Except String α
  | _, 0, lastError => .error (lastError.getD (""))
  | attempt, remaining + 1, _ =>
    match outcome attempt with
    | .ok v => .ok v
    | .error e =>
      if isNodeError e then retryGo isNodeError outcome (attempt + 1) remaining (some e)
      else .error e

/-- How many attempts the retry loop performs. -/
def retryCount (isNodeError : String → Bool) (outcome : Nat → Except String α) :
    Nat → Nat → Nat
  | _, 0 => 0
  | attempt, remaining + 1 =>
    match outcome attempt with
    | .ok _ => 1
    | .error e =>
      if isNodeError e then 1 + retryCount isNodeError outcome (attempt + 1) remaining
      else 1

/-- `const maxRetries = 3`. -/
def maxRetries : Nat := 3

/-- `handleRpcRequest` of src/unnamed/part_002, with the per-attempt
body (provider creation and method dispatch) abstracted as the
environment `outcome`. -/
def handleRpcRequest (outcome : Nat → Except String α) : Except String α :=
  retryGo isNodeErrorRpc outcome 1 maxRetries none

/-- Number of attempts `handleRpcRequest` performs. -/
def handleRpcRequestAttempts (outcome : Nat → Except String α) : Nat :=
  retryCount isNodeErrorRpc outcome 1 maxRetries

/-- The claim's endpoint-class predicate, taken from its own wording:
HTTP 406/402/400, network error, timeout, or a recognized "failed to
detect network" condition. -/
def claimEndpointClass (msg : String) : Bool :=
  containsSub msg ("406 Not Acceptable") || containsSub msg ("402 Payment Required") ||
  containsSub msg ("400 Bad Request") || containsSub msg ("network error") ||
  containsSub msg ("timeout") || containsSub msg ("failed to detect network")

/-- The error message ethers produces when a provider cannot reach its
endpoint. -/
def ftdnMsg : String := "JsonRpcProvider failed to detect network"

/-- An ethers server-side error message, outside the claim's
endpoint-class enumeration but inside the code's classifier. -/
def serverErrMsg : String := "could not coalesce error SERVER_ERROR"

/-! ### Contract call executor (`handleContractCall`,
src/unnamed/part_002 lines 321-430)

Each attempt creates a provider, resolves the contract's ABI, builds a
provider-connected contract instance, optionally builds a wallet from
`fromAddress` and calls `contract.connect(wallet)` — whose returned
connected instance the source discards — rejects `constructor`,
resolves the function fragment by name, and branches on mutability.
Upstream operations are the environment, interpreted relative to the
runner of the contract instance actually used, and the trace of issued
upstream calls is recorded. -/

/-- The runner a contract instance is connected to: the selected
provider, or a wallet built from a key string. -/
inductive Runner : Type where
  | provider
  | wallet (key : String)
deriving Repr, DecidableEq

/-- An ethers contract instance as relevant here: its address and the
runner it is connected to. -/
structure Contract : Type where
  address : String
  runner : Runner
deriving Repr, DecidableEq

/-- `contract.connect(wallet)`: returns a NEW instance connected to the
wallet; the receiver is unchanged. -/
def Contract.connect (c : Contract) (walletKey : String) : Contract :=
  { c with runner := .wallet walletKey }

/-- Function mutability as declared in the ABI. -/
inductive Mutability : Type where
  | view
  | pure
  | nonpayable
  | payable
deriving Repr, DecidableEq

/-- A function fragment of a configured ABI. -/
structure AbiFunction : Type where
  name : String
  stateMutability : Mutability
deriving Repr, DecidableEq

/-- `contract.interface.getFunction(functionName)`: resolution by name
only. -/
def getFunction (abiFunctions : List AbiFunction) (functionName : String) :
    Option AbiFunction :=
  abiFunctions.find? (fun f => f.name == functionName)

/-- `tx` as returned by submitting the transaction. -/
structure TxResponse : Type where
  hash : String
  blockNumber : Int
deriving Repr, DecidableEq

/-- One upstream operation issued during an attempt, tagged with the
runner of the contract instance it went through. -/
inductive UpstreamCall : Type where
  | selectProvider
  | readCall (runner : Runner) (functionName : String) (params : List Value)
  | estimateGas (runner : Runner) (functionName : String) (params : List Value) (value : Int)
  | sendTx (runner : Runner) (functionName : String) (params : List Value) (value : Int)
  | waitTx (runner : Runner)

/-- The runner an upstream call goes through, if it is a contract
operation. -/
def UpstreamCall.runnerOf : UpstreamCall → Option Runner
  | .selectProvider => none
  | .readCall r _ _ => some r
  | .estimateGas r _ _ _ => some r
  | .sendTx r _ _ _ => some r
  | .waitTx r => some r

/-- The environment of one attempt: the outcome of provider creation
(endpoint selection), the outcome of `new ethers.Wallet(fromAddress,
provider)` as a function of the key string passed — the constructor
throws synchronously for any value that is not a valid 32-byte private
key — and the outcome of each contract operation as a function of the
runner it is issued through. -/
structure ContractEnv : Type where
  providerOutcome : Except String Unit
  walletOutcome : String → Except String Unit
  readOutcome : Runner → Except String Value
  gasOutcome : Runner → Except String Int
  txOutcome : Runner → Except String TxResponse
  waitOutcome : Runner → Except String Int

/-- The arguments of `handleContractCall`. -/
structure ContractCallArgs : Type where
  chainId : Nat
  contractAddress : String
  contractName : String
  functionName : String
  params : List Value
  fromAddress : Option String
  value : Int

/-- JavaScript truthiness of the `fromAddress` argument (`null`,
`undefined` and the empty string are falsy). -/
def truthyStr : Option String → Bool
  | none => false
  | some s => !(s == "")

/-- The tail of an attempt of `handleContractCall` from the
constructor-name check onward (src/unnamed/part_002 lines 348-405):
rejects `constructor`, resolves the function fragment by name, and
branches on mutability; each outcome is paired with the trace of
upstream calls issued. Every operation goes through the given
`contract` instance's runner. -/
def contractCallCore (env : ContractEnv) (args : ContractCallArgs)
    (abiFunctions : List AbiFunction) (contract : Contract) :
    Except String Value × List UpstreamCall :=
  if args.functionName == "constructor" then
    (.error ("Cannot directly call constructor"), [.selectProvider])
  else
    match getFunction abiFunctions args.functionName with
    | none =>
      (.error (("Function ") ++ args.functionName ++
          (" does not exist in contract ") ++ args.contractName),
        [.selectProvider])
    | some fragment =>
      if fragment.stateMutability == .view || fragment.stateMutability == .pure then
        match env.readOutcome contract.runner with
        | .error e =>
          (.error e,
            [.selectProvider, .readCall contract.runner args.functionName args.params])
        | .ok result =>
          (.ok (processBigInt result),
            [.selectProvider, .readCall contract.runner args.functionName args.params])
      else
        if !truthyStr args.fromAddress then
          (.error ("Write operations require fromAddress"), [.selectProvider])
        else
          match env.gasOutcome contract.runner with
          | .error e =>
            (.error e,
              [.selectProvider,
                .estimateGas contract.runner args.functionName args.params args.value])
          | .ok _gasEstimate =>
            match env.txOutcome contract.runner with
            | .error e =>
              (.error e,
                [.selectProvider,
                  .estimateGas contract.runner args.functionName args.params args.value,
                  .sendTx contract.runner args.functionName args.params args.value])
            | .ok tx =>
              match env.waitOutcome contract.runner with
              | .error e =>
                (.error e,
                  [.selectProvider,
                    .estimateGas contract.runner args.functionName args.params args.value,
                    .sendTx contract.runner args.functionName args.params args.value,
                    .waitTx contract.runner])
              | .ok gasUsed =>
                (.ok (processBigInt (.obj
                    [(("transactionHash"), .str tx.hash),
                      (("gasUsed"), .str (toString gasUsed)),
                      (("blockNumber"), .num tx.blockNumber)])),
                  [.selectProvider,
                    .estimateGas contract.runner args.functionName args.params args.value,
                    .sendTx contract.runner args.functionName args.params args.value,
                    .waitTx contract.runner])

/-- One attempt of `handleContractCall` (the body of the retry loop,
src/unnamed/part_002 lines 326-405): returns the attempt's outcome and
the trace of upstream calls issued. When `fromAddress` is truthy, the
wallet construction `new ethers.Wallet(fromAddress, provider)` runs
first and its synchronous throw (for any value that is not a valid
private key) aborts the attempt before the constructor check; when it
succeeds, the instance returned by `contract.connect(wallet)` is bound
and never used again, exactly as in the source, so every contract
operation goes through `contract`, whose runner is the provider. -/
def handleContractCallAttempt (abiConfig : String → Option (List AbiFunction))
    (env : ContractEnv) (args : ContractCallArgs) :
    Except String Value × List UpstreamCall :=
  match env.providerOutcome with
  | .error e => (.error e, [.selectProvider])
  | .ok _ =>
    match abiConfig args.contractName with
    | none =>
      (.error (("ABI configuration not found for contract ") ++ args.contractName),
        [.selectProvider])
    | some abiFunctions =>
      let contract : Contract := { address := args.contractAddress, runner := .provider }
      if truthyStr args.fromAddress then
        match env.walletOutcome (args.fromAddress.getD ("")) with
        | .error e => (.error e, [.selectProvider])
        | .ok _ =>
          let _connected : Contract := contract.connect (args.fromAddress.getD (""))
          contractCallCore env args abiFunctions contract
      else
        contractCallCore env args abiFunctions contract

/-- `handleContractCall` of src/unnamed/part_002: the attempt body
wrapped in the 3-attempt retry loop with the contract-call node-error
classifier; `envs k` is the environment seen by attempt `k`. -/
def handleContractCall (abiConfig : String → Option (List AbiFunction))
    (envs : Nat → ContractEnv) (args : ContractCallArgs) : Except String Value :=
  retryGo isNodeErrorContract
    (fun k => (handleContractCallAttempt abiConfig (envs k) args).1) 1 maxRetries none

/-- Number of attempts `handleContractCall` performs. -/
def handleContractCallAttemptCount (abiConfig : String → Option (List AbiFunction))
    (envs : Nat → ContractEnv) (args : ContractCallArgs) : Nat :=
  retryCount isNodeErrorContract
    (fun k => (handleContractCallAttempt abiConfig (envs k) args).1) 1 maxRetries

/-- Does an upstream call go through the provider-connected instance
(or through no contract instance at all)? -/
def goesThroughProvider (c : UpstreamCall) : Bool :=
  match c.runnerOf with
  | none => true
  | some r => r == .provider

/-- ABI fixture: a token contract with a view `balanceOf` and a
nonpayable `transfer`. -/
def abiTokenW : String → Option (List AbiFunction) := fun n =>
  if n == "token" then some [⟨"balanceOf", .view⟩, ⟨"transfer", .nonpayable⟩] else none

/-- Environment fixture: selection, wallet construction and every
upstream operation succeed. -/
def envAllOkW : ContractEnv where
  providerOutcome := .ok ()
  walletOutcome := fun _ => .ok ()
  readOutcome := fun _ => .ok (.bigint 123)
  gasOutcome := fun _ => .ok 21000
  txOutcome := fun _ => .ok ⟨"0xabc", 10⟩
  waitOutcome := fun _ => .ok 21000

/-- Per-attempt environment fixture: `envAllOkW` on every attempt. -/
def envsAllOkW : Nat → ContractEnv := fun _ => envAllOkW

/-- A valid 32-byte private key (accepted by `new ethers.Wallet`). -/
def goodKeyW : String :=
  "0x59c6995e998f97a5a0044966f0945389dc9e86dae88c7a8412f4603b6b78690d"

/-- Environment fixture where wallet construction behaves as
`new ethers.Wallet` does: it succeeds for the valid private key
`goodKeyW` and throws for every other value. -/
def envWalletW : ContractEnv where
  providerOutcome := .ok ()
  walletOutcome := fun k => if k == goodKeyW then .ok () else .error ("invalid private key")
  readOutcome := fun _ => .ok (.bigint 123)
  gasOutcome := fun _ => .ok 21000
  txOutcome := fun _ => .ok ⟨"0xabc", 10⟩
  waitOutcome := fun _ => .ok 21000

/-- Per-attempt environment fixture: `envWalletW` on every attempt. -/
def envsWalletW : Nat → ContractEnv := fun _ => envWalletW

/-- Argument fixture: a write call to `transfer` with no signer. -/
def argsTransferW : ContractCallArgs :=
  ⟨1, "0xC0", "token", "transfer", [], none, 0⟩

/-- Argument fixture: a read call to `balanceOf` with no signer. -/
def argsBalanceW : ContractCallArgs :=
  ⟨1, "0xC0", "token", "balanceOf", [], none, 0⟩

/-- Argument fixture: a constructor call on the configured token
contract, with nontrivial params and value and no signer. -/
def argsCtorW : ContractCallArgs :=
  ⟨1, "0xC0", "token", "constructor", [.num 1], none, 5⟩

theorem processBigIntList_eq_map (vs : List Value) :
    processBigIntList vs = vs.map processBigInt := by
  induction vs with
  | nil => rfl
  | cons v vs ih => simp [processBigIntList, ih]

theorem processBigIntFields_eq_map (fs : List (String × Value)) :
    processBigIntFields fs = fs.map (fun kv => (kv.1, processBigInt kv.2)) := by
  induction fs with
  | nil => rfl
  | cons kv fs ih => cases kv; simp [processBigIntFields, ih]

mutual

theorem processBigInt_idem : ∀ v, processBigInt (processBigInt v) = processBigInt v
  | .bigint _ => rfl
  | .str _ => rfl
  | .num _ => rfl
  | .bool _ => rfl
  | .null => rfl
  | .arr elems => by simp [processBigInt, processBigIntList_idem elems]
  | .obj fields => by simp [processBigInt, processBigIntFields_idem fields]

theorem processBigIntList_idem : ∀ vs, processBigIntList (processBigIntList vs) = processBigIntList vs
  | [] => rfl
  | v :: vs => by
      simp [processBigIntList, processBigInt_idem v, processBigIntList_idem vs]

theorem processBigIntFields_idem :
    ∀ fs, processBigIntFields (processBigIntFields fs) = processBigIntFields fs
  | [] => rfl
  | (k, v) :: fs => by
      simp [processBigIntFields, processBigInt_idem v, processBigIntFields_idem fs]

end

mutual

theorem hasBigInt_processBigInt : ∀ v, hasBigInt (processBigInt v) = false
  | .bigint _ => rfl
  | .str _ => rfl
  | .num _ => rfl
  | .bool _ => rfl
  | .null => rfl
  | .arr elems => by simp [processBigInt, hasBigInt, hasBigIntList_processBigIntList elems]
  | .obj fields => by simp [processBigInt, hasBigInt, hasBigIntFields_processBigIntFields fields]

theorem hasBigIntList_processBigIntList :
    ∀ vs, hasBigIntList (processBigIntList vs) = false
  | [] => rfl
  | v :: vs => by
      simp [processBigIntList, hasBigIntList, hasBigInt_processBigInt v,
        hasBigIntList_processBigIntList vs]

theorem hasBigIntFields_processBigIntFields :
    ∀ fs, hasBigIntFields (processBigIntFields fs) = false
  | [] => rfl
  | (k, v) :: fs => by
      simp [processBigIntFields, hasBigIntFields, hasBigInt_processBigInt v,
        hasBigIntFields_processBigIntFields fs]

end

/-- The head-then-tail search equals a single scan of the whole
shuffled list. -/
theorem checkNodes_then_fallback (avail : String → Bool) (l : List String) :
    ((checkNodes avail l).or ((l.drop 3).find? avail)) = l.find? avail := by
  unfold checkNodes
  rw [← List.find?_append, List.take_append_drop]

/-- When the chain is found, `getRpcUrl` behaves as a single first-match
scan of the shuffled candidate list. -/
theorem getRpcUrl_eq_find? (rpcConfig : List ChainConfig) (avail : String → Bool)
    (shuffle : List String → List String) (chainId : Nat) (chain : ChainConfig)
    (hc : findChain rpcConfig chainId = some chain) :
    getRpcUrl rpcConfig avail shuffle chainId =
      match (shuffle (chain.rpc.map (fun r => r.url))).find? avail with
      | some u => .ok u
      | none => .error (.noAvailableNodes chain.name chainId) := by
  simp only [getRpcUrl, hc]
  rw [← checkNodes_then_fallback avail (shuffle (chain.rpc.map (fun r => r.url)))]
  cases checkNodes avail (shuffle (chain.rpc.map (fun r => r.url))) with
  | none =>
    cases (shuffle (chain.rpc.map (fun r => r.url))).drop 3 |>.find? avail <;> rfl
  | some u => rfl

/-- All probes fail on a list of dead URLs, so the sequential fallback
walks the whole list. -/
theorem seqProbes_all_dead (avail : String → Bool) (l : List String)
    (h : ∀ u ∈ l, avail u = false) : seqProbes avail l = l := by
  induction l with
  | nil => rfl
  | cons u us ih =>
    simp [seqProbes, h u (List.mem_cons_self u us),
      ih (fun v hv => h v (List.mem_cons_of_mem u hv))]

/-- C1: for every chain whose configuration has at least one candidate
endpoint URL, if at least one candidate's liveness probe reports
available, then `getRpcUrl` returns a URL that is a member of the
chain's configured candidate set and whose probe reported available,
rather than failing. -/
theorem getRpcUrl_returns_live_candidate
    (rpcConfig : List ChainConfig) (avail : String → Bool)
    (shuffle : List String → List String) (chainId : Nat) (chain : ChainConfig)
    (hc : findChain rpcConfig chainId = some chain)
    (hperm : (shuffle (chain.rpc.map (fun r => r.url))).Perm (chain.rpc.map (fun r => r.url)))
    (hlive : ∃ u ∈ chain.rpc.map (fun r => r.url), avail u = true) :
    ∃ u, getRpcUrl rpcConfig avail shuffle chainId = .ok u ∧
      u ∈ chain.rpc.map (fun r => r.url) ∧ avail u = true := by
  rw [getRpcUrl_eq_find? rpcConfig avail shuffle chainId chain hc]
  obtain ⟨u, hu, hau⟩ := hlive
  have hsome : ((shuffle (chain.rpc.map (fun r => r.url))).find? avail).isSome :=
    List.find?_isSome.mpr ⟨u, hperm.mem_iff.mpr hu, hau⟩
  obtain ⟨v, hv⟩ := Option.isSome_iff_exists.mp hsome
  refine ⟨v, ?_, ?_, ?_⟩
  · rw [hv]
  · exact hperm.mem_iff.mp (List.mem_of_find?_eq_some hv)
  · exact List.find?_some hv

/-- Witness for C1 at a concrete configuration with one live URL. -/
theorem getRpcUrl_returns_live_candidate_witness :
    ∃ u, getRpcUrl [⟨1, 1, "Ethereum", [⟨"urlA"⟩]⟩] (fun _ => true) id 1 = .ok u ∧
      u ∈ (ChainConfig.mk 1 1 "Ethereum" [⟨"urlA"⟩]).rpc.map (fun r => r.url) ∧
      (fun _ : String => true) u = true :=
  getRpcUrl_returns_live_candidate [⟨1, 1, "Ethereum", [⟨"urlA"⟩]⟩] (fun _ => true) id 1
    ⟨1, 1, "Ethereum", [⟨"urlA"⟩]⟩ rfl (List.Perm.refl _) ⟨"urlA", by simp, rfl⟩

/-- C2: for every chain whose candidates all probe unavailable,
`getRpcUrl` fails with the no-available-nodes error carrying the chain
name and queried chain id, the set of probed URLs is exactly the whole
shuffled candidate list (head concurrently, tail sequentially), and no
configured candidate is skipped. -/
theorem getRpcUrl_exhausts_all_candidates
    (rpcConfig : List ChainConfig) (avail : String → Bool)
    (shuffle : List String → List String) (chainId : Nat) (chain : ChainConfig)
    (hc : findChain rpcConfig chainId = some chain)
    (hperm : (shuffle (chain.rpc.map (fun r => r.url))).Perm (chain.rpc.map (fun r => r.url)))
    (hdead : ∀ u ∈ chain.rpc.map (fun r => r.url), avail u = false) :
    getRpcUrl rpcConfig avail shuffle chainId =
        .error (.noAvailableNodes chain.name chainId) ∧
      probedUrls avail (shuffle (chain.rpc.map (fun r => r.url))) =
        shuffle (chain.rpc.map (fun r => r.url)) ∧
      ∀ u ∈ chain.rpc.map (fun r => r.url),
        u ∈ probedUrls avail (shuffle (chain.rpc.map (fun r => r.url))) := by
  have hdead' : ∀ u ∈ shuffle (chain.rpc.map (fun r => r.url)), avail u = false :=
    fun u hu => hdead u (hperm.mem_iff.mp hu)
  have hnone : (shuffle (chain.rpc.map (fun r => r.url))).find? avail = none :=
    List.find?_eq_none.mpr (fun u hu => by simp [hdead' u hu])
  have hprobed : probedUrls avail (shuffle (chain.rpc.map (fun r => r.url))) =
      shuffle (chain.rpc.map (fun r => r.url)) := by
    have hheadnone : ((shuffle (chain.rpc.map (fun r => r.url))).take 3).find? avail = none :=
      List.find?_eq_none.mpr
        (fun u hu => by simp [hdead' u (List.mem_of_mem_take hu)])
    simp only [probedUrls]
    rw [hheadnone]
    simp only [Option.isSome_none, Bool.false_eq_true, if_false]
    rw [seqProbes_all_dead avail _
      (fun u hu => hdead' u (List.mem_of_mem_drop hu))]
    exact List.take_append_drop 3 _
  refine ⟨?_, hprobed, ?_⟩
  · rw [getRpcUrl_eq_find? rpcConfig avail shuffle chainId chain hc, hnone]
  · intro u hu
    rw [hprobed]
    exact hperm.mem_iff.mpr hu

/-- Witness for C2 at a concrete configuration of four dead URLs. -/
theorem getRpcUrl_exhausts_all_candidates_witness :
    getRpcUrl [⟨1, 1, "Ethereum", [⟨"a"⟩, ⟨"b"⟩, ⟨"c"⟩, ⟨"d"⟩]⟩] (fun _ => false) id 1 =
        .error (.noAvailableNodes (ChainConfig.mk 1 1 "Ethereum"
          [⟨"a"⟩, ⟨"b"⟩, ⟨"c"⟩, ⟨"d"⟩]).name 1) ∧
      probedUrls (fun _ => false)
          (id ((ChainConfig.mk 1 1 "Ethereum" [⟨"a"⟩, ⟨"b"⟩, ⟨"c"⟩, ⟨"d"⟩]).rpc.map
            (fun r => r.url))) =
        id ((ChainConfig.mk 1 1 "Ethereum" [⟨"a"⟩, ⟨"b"⟩, ⟨"c"⟩, ⟨"d"⟩]).rpc.map
          (fun r => r.url)) ∧
      ∀ u ∈ (ChainConfig.mk 1 1 "Ethereum" [⟨"a"⟩, ⟨"b"⟩, ⟨"c"⟩, ⟨"d"⟩]).rpc.map
          (fun r => r.url),
        u ∈ probedUrls (fun _ => false)
          (id ((ChainConfig.mk 1 1 "Ethereum" [⟨"a"⟩, ⟨"b"⟩, ⟨"c"⟩, ⟨"d"⟩]).rpc.map
            (fun r => r.url))) :=
  getRpcUrl_exhausts_all_candidates [⟨1, 1, "Ethereum", [⟨"a"⟩, ⟨"b"⟩, ⟨"c"⟩, ⟨"d"⟩]⟩]
    (fun _ => false) id 1 ⟨1, 1, "Ethereum", [⟨"a"⟩, ⟨"b"⟩, ⟨"c"⟩, ⟨"d"⟩]⟩
    rfl (List.Perm.refl _) (fun _ _ => rfl)

/-- C7: for every chain configuration entry whose candidate list is
empty, `getRpcUrl` fails with the no-available-nodes configuration
error and the set of probed URLs is empty — no liveness probe is
performed. -/
theorem getRpcUrl_empty_candidates
    (rpcConfig : List ChainConfig) (avail : String → Bool)
    (shuffle : List String → List String) (chainId : Nat) (chain : ChainConfig)
    (hc : findChain rpcConfig chainId = some chain)
    (hempty : chain.rpc = [])
    (hperm : (shuffle (chain.rpc.map (fun r => r.url))).Perm (chain.rpc.map (fun r => r.url))) :
    getRpcUrl rpcConfig avail shuffle chainId =
        .error (.noAvailableNodes chain.name chainId) ∧
      probedUrls avail (shuffle (chain.rpc.map (fun r => r.url))) = [] := by
  have hnil : shuffle (chain.rpc.map (fun r => r.url)) = [] := by
    have := hperm
    rw [hempty] at this ⊢
    exact this.eq_nil
  constructor
  · rw [getRpcUrl_eq_find? rpcConfig avail shuffle chainId chain hc, hnil]
    rfl
  · rw [hnil]
    rfl

/-- Witness for C7 at a concrete zero-candidate configuration. -/
theorem getRpcUrl_empty_candidates_witness :
    getRpcUrl [⟨5, 5, "EmptyChain", []⟩] (fun _ => true) id 5 =
        .error (.noAvailableNodes (ChainConfig.mk 5 5 "EmptyChain" []).name 5) ∧
      probedUrls (fun _ => true)
        (id ((ChainConfig.mk 5 5 "EmptyChain" []).rpc.map (fun r => r.url))) = [] :=
  getRpcUrl_empty_candidates [⟨5, 5, "EmptyChain", []⟩] (fun _ => true) id 5
    ⟨5, 5, "EmptyChain", []⟩ rfl rfl (List.Perm.refl _)

/-- C9: the registry lookup matches a queried identifier against each
entry by equality with its `chainId` or its `networkId`, returns the
first matching entry in list order, and when no entry matches,
`getRpcUrl` fails with the configuration-not-found error. -/
theorem findChain_first_match_or_unknown :
    (∀ (rpcConfig : List ChainConfig) (chainId : Nat) (c : ChainConfig),
      findChain rpcConfig chainId = some c →
        c ∈ rpcConfig ∧ (c.chainId = chainId ∨ c.networkId = chainId)) ∧
    (∀ (pre : List ChainConfig) (c : ChainConfig) (post : List ChainConfig) (chainId : Nat),
      (∀ c0 ∈ pre, c0.chainId ≠ chainId ∧ c0.networkId ≠ chainId) →
      (c.chainId = chainId ∨ c.networkId = chainId) →
      findChain (pre ++ c :: post) chainId = some c) ∧
    (∀ (rpcConfig : List ChainConfig) (chainId : Nat),
      (∀ c ∈ rpcConfig, c.chainId ≠ chainId ∧ c.networkId ≠ chainId) →
      ∀ (avail : String → Bool) (shuffle : List String → List String),
        getRpcUrl rpcConfig avail shuffle chainId = .error (.configNotFound chainId)) := by
  refine ⟨?_, ?_, ?_⟩
  · intro rpcConfig chainId c hfind
    refine ⟨List.mem_of_find?_eq_some hfind, ?_⟩
    have := List.find?_some hfind
    simpa using this
  · intro pre c post chainId hpre hmatch
    unfold findChain
    induction pre with
    | nil =>
      simp only [List.nil_append]
      exact List.find?_cons_of_pos _ (by simpa using hmatch)
    | cons c0 pre ih =>
      have h0 := hpre c0 (List.mem_cons_self c0 pre)
      simp only [List.cons_append]
      rw [List.find?_cons_of_neg _ (by simp [h0.1, h0.2])]
      exact ih (fun c1 hc1 => hpre c1 (List.mem_cons_of_mem c0 hc1))
  · intro rpcConfig chainId hnone avail shuffle
    have hfind : findChain rpcConfig chainId = none :=
      List.find?_eq_none.mpr (fun c hc => by simp [(hnone c hc).1, (hnone c hc).2])
    unfold getRpcUrl
    rw [hfind]

/-- Witness for C9: first-match-wins on a registry whose second entry
matches by network id, and unknown-chain error when nothing matches. -/
theorem findChain_first_match_or_unknown_witness :
    findChain [⟨1, 1, "Ethereum", []⟩, ⟨61, 1, "Classic", []⟩] 61 =
        some ⟨61, 1, "Classic", []⟩ ∧
      getRpcUrl [⟨1, 1, "Ethereum", []⟩] (fun _ => true) id 2 =
        .error (.configNotFound 2) :=
  ⟨findChain_first_match_or_unknown.2.1 [⟨1, 1, "Ethereum", []⟩] ⟨61, 1, "Classic", []⟩ [] 61
      (by intro c0 hc0; simp at hc0; simp [hc0]) (Or.inl rfl),
    findChain_first_match_or_unknown.2.2 [⟨1, 1, "Ethereum", []⟩] 2
      (by intro c hc; simp at hc; simp [hc]) (fun _ => true) id⟩

/-- C3: the liveness probe is a total Boolean verdict (it never raises
to its caller), it reports a URL available iff the HTTP status is 200,
the response id equals the freshly generated per-call id that was sent
and the payload has a defined result field; and a timeout, a network
failure, any error status (including 400, 402, 406 and anything ≥ 400
on a resolved response), any other transport error, or an id mismatch
each make it report unavailable. -/
theorem isRpcAvailable_verdict :
    (∀ (sentId : Nat) (o : ProbeOutcome),
      isRpcAvailable sentId o = true ↔ o = .response 200 (some sentId) true) ∧
    (∀ (sentId status : Nat), isRpcAvailable sentId (.httpError status) = false) ∧
    (∀ sentId : Nat, isRpcAvailable sentId .timeout = false) ∧
    (∀ sentId : Nat, isRpcAvailable sentId .networkError = false) ∧
    (∀ (sentId : Nat) (msg : String), isRpcAvailable sentId (.otherError msg) = false) ∧
    (∀ (sentId status : Nat) (respId : Option Nat) (hasResult : Bool),
      respId ≠ some sentId →
      isRpcAvailable sentId (.response status respId hasResult) = false) ∧
    (∀ (sentId status : Nat) (respId : Option Nat) (hasResult : Bool),
      400 ≤ status →
      isRpcAvailable sentId (.response status respId hasResult) = false) := by
  refine ⟨?_, fun _ _ => rfl, fun _ => rfl, fun _ => rfl, fun _ _ => rfl, ?_, ?_⟩
  · intro sentId o
    constructor
    · intro h
      cases o with
      | response status respId hasResult =>
        by_cases hid : respId = some sentId
        · subst hid
          simp only [isRpcAvailable, bne_self_eq_false, Bool.false_eq_true, if_false] at h
          by_cases hs : status = 200
          · subst hs
            cases hasResult with
            | false => simp at h
            | true => rfl
          · simp [hs] at h
        · simp [isRpcAvailable, bne_iff_ne, hid] at h
      | httpError status => simp [isRpcAvailable] at h
      | timeout => simp [isRpcAvailable] at h
      | networkError => simp [isRpcAvailable] at h
      | otherError msg => simp [isRpcAvailable] at h
    · intro h
      subst h
      simp [isRpcAvailable]
  · intro sentId status respId hasResult hne
    simp [isRpcAvailable, bne_iff_ne, hne]
  · intro sentId status respId hasResult hge
    have hne : status ≠ 200 := by omega
    simp [isRpcAvailable, hne]

/-- Witness for C3: a 200 response with matching id and a result is
available; an id mismatch and a 404 are not. -/
theorem isRpcAvailable_verdict_witness :
    isRpcAvailable 7 (.response 200 (some 7) true) = true ∧
      isRpcAvailable 7 (.response 200 (some 8) true) = false ∧
      isRpcAvailable 7 (.response 404 (some 7) true) = false :=
  ⟨(isRpcAvailable_verdict.1 7 (.response 200 (some 7) true)).mpr rfl,
    isRpcAvailable_verdict.2.2.2.2.2.1 7 200 (some 8) true (by decide),
    isRpcAvailable_verdict.2.2.2.2.2.2 7 404 (some 7) true (by decide)⟩

/-- C4 (amended): the dispatcher's retry loop is bounded at 3 attempts;
a failure whose message matches the dispatcher's node-error classifier
(`406 Not Acceptable`, `402 Payment Required`, `network error`,
`timeout`, `400 Bad Request`, `SERVER_ERROR`) causes a fresh selection
and retry within the budget, every other failure propagates
immediately, and when all attempts fail the last observed error is
surfaced. (The `failed to detect network` condition is recognized only
by the contract-call executor, not by this dispatcher.) -/
theorem handleRpcRequest_retry_policy (outcome : Nat → Except String Value) :
    (∀ v, outcome 1 = .ok v →
      handleRpcRequest outcome = .ok v ∧ handleRpcRequestAttempts outcome = 1) ∧
    (∀ e, outcome 1 = .error e → isNodeErrorRpc e = false →
      handleRpcRequest outcome = .error e ∧ handleRpcRequestAttempts outcome = 1) ∧
    (∀ e1 v, outcome 1 = .error e1 → isNodeErrorRpc e1 = true → outcome 2 = .ok v →
      handleRpcRequest outcome = .ok v ∧ handleRpcRequestAttempts outcome = 2) ∧
    (∀ e1 e2, outcome 1 = .error e1 → isNodeErrorRpc e1 = true →
      outcome 2 = .error e2 → isNodeErrorRpc e2 = false →
      handleRpcRequest outcome = .error e2 ∧ handleRpcRequestAttempts outcome = 2) ∧
    (∀ e1 e2 v, outcome 1 = .error e1 → isNodeErrorRpc e1 = true →
      outcome 2 = .error e2 → isNodeErrorRpc e2 = true → outcome 3 = .ok v →
      handleRpcRequest outcome = .ok v ∧ handleRpcRequestAttempts outcome = 3) ∧
    (∀ e1 e2 e3, outcome 1 = .error e1 → isNodeErrorRpc e1 = true →
      outcome 2 = .error e2 → isNodeErrorRpc e2 = true →
      outcome 3 = .error e3 → isNodeErrorRpc e3 = true →
      handleRpcRequest outcome = .error e3 ∧ handleRpcRequestAttempts outcome = 3) := by
  refine ⟨?_, ?_, ?_, ?_, ?_, ?_⟩
  · intro v h1
    constructor <;>
      simp [handleRpcRequest, handleRpcRequestAttempts, maxRetries, retryGo, retryCount, h1]
  · intro e h1 hc1
    constructor <;>
      simp [handleRpcRequest, handleRpcRequestAttempts, maxRetries, retryGo, retryCount, h1, hc1]
  · intro e1 v h1 hc1 h2
    constructor <;>
      simp [handleRpcRequest, handleRpcRequestAttempts, maxRetries, retryGo, retryCount,
        h1, hc1, h2]
  · intro e1 e2 h1 hc1 h2 hc2
    constructor <;>
      simp [handleRpcRequest, handleRpcRequestAttempts, maxRetries, retryGo, retryCount,
        h1, hc1, h2, hc2]
  · intro e1 e2 v h1 hc1 h2 hc2 h3
    constructor <;>
      simp [handleRpcRequest, handleRpcRequestAttempts, maxRetries, retryGo, retryCount,
        h1, hc1, h2, hc2, h3]
  · intro e1 e2 e3 h1 hc1 h2 hc2 h3 hc3
    constructor <;>
      simp [handleRpcRequest, handleRpcRequestAttempts, maxRetries, retryGo, retryCount,
        h1, hc1, h2, hc2, h3, hc3]

/-- Witness for C4 (amended): a node-class error on the first attempt
is retried and the second attempt's success is returned. -/
theorem handleRpcRequest_retry_policy_witness :
    handleRpcRequest (fun k =>
        if k == 1 then (.error ("timeout") : Except String Value) else .ok (.num 7)) =
      .ok (.num 7) ∧
    handleRpcRequestAttempts (fun k =>
        if k == 1 then (.error ("timeout") : Except String Value) else .ok (.num 7)) = 2 :=
  (handleRpcRequest_retry_policy (fun k =>
      if k == 1 then (.error ("timeout") : Except String Value) else .ok (.num 7))).2.2.1
    ("timeout") (.num 7) rfl (by decide) rfl

/-- Counterexample to C4 as stated: a failure carrying the recognized
"failed to detect network" condition is endpoint-class per the claim,
yet the dispatcher's classifier rejects it, so `handleRpcRequest`
gives up after a single attempt instead of retrying within the
3-attempt budget. -/
theorem handleRpcRequest_ftdn_not_retried :
    claimEndpointClass ftdnMsg = true ∧
      isNodeErrorRpc ftdnMsg = false ∧
      handleRpcRequestAttempts (fun _ => (.error ftdnMsg : Except String Value)) = 1 ∧
      handleRpcRequestAttempts (fun _ => (.error ftdnMsg : Except String Value)) ≠ 3 ∧
      claimEndpointClass serverErrMsg = false ∧
      handleRpcRequestAttempts (fun _ => (.error serverErrMsg : Except String Value)) = 3 := by
  have hc : isNodeErrorRpc ftdnMsg = false := by decide
  have hs : isNodeErrorRpc serverErrMsg = true := by decide
  refine ⟨by decide, hc, ?_, ?_, by decide, ?_⟩ <;>
    simp [handleRpcRequestAttempts, maxRetries, retryCount, hc, hs]

/-- Every upstream call `contractCallCore` issues on a
provider-connected contract instance goes through the provider. -/
theorem core_trace_through_provider (env : ContractEnv) (args : ContractCallArgs)
    (abiFunctions : List AbiFunction) (addr : String) :
    ((contractCallCore env args abiFunctions ⟨addr, .provider⟩).2).all
      goesThroughProvider = true := by
  unfold contractCallCore
  dsimp only
  repeat' (first | rfl | (split <;> try dsimp only))

/-- Every upstream call any attempt issues goes through the
provider-connected contract instance: the instance returned by
`contract.connect(wallet)` is discarded by the source. -/
theorem attempt_trace_through_provider
    (abiConfig : String → Option (List AbiFunction)) (env : ContractEnv)
    (args : ContractCallArgs) :
    ((handleContractCallAttempt abiConfig env args).2).all goesThroughProvider = true := by
  unfold handleContractCallAttempt
  dsimp only
  repeat' (first
    | rfl
    | exact core_trace_through_provider env args _ _
    | (split <;> try dsimp only))

/-- The attempt body is invariant under the concrete non-empty value of
`fromAddress` whenever wallet construction has the same outcome for the
two values. -/
theorem attempt_fromAddress_value_irrelevant
    (abiConfig : String → Option (List AbiFunction)) (env : ContractEnv)
    (args : ContractCallArgs) (fa1 fa2 : String) (h1 : fa1 ≠ "") (h2 : fa2 ≠ "")
    (hw : env.walletOutcome fa1 = env.walletOutcome fa2) :
    handleContractCallAttempt abiConfig env { args with fromAddress := some fa1 } =
      handleContractCallAttempt abiConfig env { args with fromAddress := some fa2 } := by
  have ht1 : truthyStr (some fa1) = true := by simp [truthyStr, h1]
  have ht2 : truthyStr (some fa2) = true := by simp [truthyStr, h2]
  simp only [handleContractCallAttempt, contractCallCore, ht1, ht2, Option.getD_some, hw]

/-- C10 (amended): the connected instance returned by
`contract.connect(wallet)` is discarded, so every upstream call of
every attempt goes through the original provider-connected contract
instance; and two calls differing only in the (present, non-empty)
value of `fromAddress` produce the same overall result and issue
identical per-attempt upstream call sequences whenever the wallet
construction `new ethers.Wallet(fromAddress, provider)` has the same
outcome for the two values — the wallet constructor itself is the one
step that can distinguish them. -/
theorem handleContractCall_signer_value_noninterference
    (abiConfig : String → Option (List AbiFunction)) (envs : Nat → ContractEnv)
    (args : ContractCallArgs) (fa1 fa2 : String) (h1 : fa1 ≠ "") (h2 : fa2 ≠ "")
    (hw : ∀ k, (envs k).walletOutcome fa1 = (envs k).walletOutcome fa2) :
    handleContractCall abiConfig envs { args with fromAddress := some fa1 } =
      handleContractCall abiConfig envs { args with fromAddress := some fa2 } ∧
    (∀ k, handleContractCallAttempt abiConfig (envs k) { args with fromAddress := some fa1 } =
      handleContractCallAttempt abiConfig (envs k) { args with fromAddress := some fa2 }) ∧
    (∀ k, ((handleContractCallAttempt abiConfig (envs k)
        { args with fromAddress := some fa1 }).2).all goesThroughProvider = true) := by
  have hatt : ∀ k,
      handleContractCallAttempt abiConfig (envs k) { args with fromAddress := some fa1 } =
        handleContractCallAttempt abiConfig (envs k) { args with fromAddress := some fa2 } :=
    fun k => attempt_fromAddress_value_irrelevant abiConfig (envs k) args fa1 fa2 h1 h2 (hw k)
  refine ⟨?_, hatt, ?_⟩
  · unfold handleContractCall
    congr 1
    funext k
    rw [hatt k]
  · intro k
    exact attempt_trace_through_provider abiConfig (envs k)
      { args with fromAddress := some fa1 }

/-- Witness for C10 (amended) with two different non-empty signer
values on which wallet construction agrees. -/
theorem handleContractCall_signer_value_noninterference_witness :
    handleContractCall abiTokenW envsAllOkW
        { argsTransferW with fromAddress := some ("0xAAA") } =
      handleContractCall abiTokenW envsAllOkW
        { argsTransferW with fromAddress := some ("0xBBB") } ∧
    (∀ k, handleContractCallAttempt abiTokenW (envsAllOkW k)
        { argsTransferW with fromAddress := some ("0xAAA") } =
      handleContractCallAttempt abiTokenW (envsAllOkW k)
        { argsTransferW with fromAddress := some ("0xBBB") }) ∧
    (∀ k, ((handleContractCallAttempt abiTokenW (envsAllOkW k)
        { argsTransferW with fromAddress := some ("0xAAA") }).2).all
          goesThroughProvider = true) :=
  handleContractCall_signer_value_noninterference abiTokenW envsAllOkW
    argsTransferW ("0xAAA") ("0xBBB") (by decide) (by decide) (fun _ => rfl)

/-- Counterexample to C10 as stated: two write requests differing only
in the non-empty value of `fromAddress` — a valid private key versus a
plain address — give different outcomes and upstream call sequences of
different lengths, because `new ethers.Wallet(fromAddress, provider)`
throws for the invalid value before any contract operation is issued. -/
theorem handleContractCall_signer_value_dependent :
    handleContractCall abiTokenW envsWalletW
        { argsTransferW with fromAddress := some goodKeyW } =
      .ok (.obj [(("transactionHash"), .str ("0xabc")),
        (("gasUsed"), .str ("21000")), (("blockNumber"), .num 10)]) ∧
    handleContractCall abiTokenW envsWalletW
        { argsTransferW with fromAddress := some ("0xAAA") } =
      .error ("invalid private key") ∧
    goodKeyW ≠ ("") ∧ ("0xAAA" : String) ≠ ("") ∧
    handleContractCall abiTokenW envsWalletW
        { argsTransferW with fromAddress := some goodKeyW } ≠
      handleContractCall abiTokenW envsWalletW
        { argsTransferW with fromAddress := some ("0xAAA") } ∧
    ((handleContractCallAttempt abiTokenW envWalletW
        { argsTransferW with fromAddress := some goodKeyW }).2).length = 4 ∧
    ((handleContractCallAttempt abiTokenW envWalletW
        { argsTransferW with fromAddress := some ("0xAAA") }).2).length = 1 := by
  have hgood : handleContractCall abiTokenW envsWalletW
      { argsTransferW with fromAddress := some goodKeyW } =
      .ok (.obj [(("transactionHash"), .str ("0xabc")),
        (("gasUsed"), .str ("21000")), (("blockNumber"), .num 10)]) := rfl
  have hbad : handleContractCall abiTokenW envsWalletW
      { argsTransferW with fromAddress := some ("0xAAA") } =
      .error ("invalid private key") := rfl
  refine ⟨hgood, hbad, by decide, by decide, ?_, rfl, rfl⟩
  rw [hgood, hbad]
  intro h
  exact Except.noConfusion h

/-- C5: with selection succeeded, the contract configured, and the
function resolved, `fromAddress` is required exactly when the resolved
mutability is nonpayable or payable: a write call with `fromAddress`
omitted fails with the missing-signer error and is not retried; a
view/pure call without `fromAddress` proceeds as a read and returns
the normalized read result whenever the underlying read succeeds; and
a write call with a non-empty signer accepted by the wallet
constructor proceeds to gas estimation, submission and the receipt
summary. -/
theorem handleContractCall_fromAddress_requirement
    (abiConfig : String → Option (List AbiFunction)) (envs : Nat → ContractEnv)
    (args : ContractCallArgs) (abiFunctions : List AbiFunction) (fragment : AbiFunction)
    (hprov : (envs 1).providerOutcome = .ok ())
    (habi : abiConfig args.contractName = some abiFunctions)
    (hctor : args.functionName ≠ "constructor")
    (hfn : getFunction abiFunctions args.functionName = some fragment) :
    ((fragment.stateMutability = .nonpayable ∨ fragment.stateMutability = .payable) →
      args.fromAddress = none →
      handleContractCall abiConfig envs args =
          .error ("Write operations require fromAddress") ∧
        handleContractCallAttemptCount abiConfig envs args = 1) ∧
    ((fragment.stateMutability = .view ∨ fragment.stateMutability = .pure) →
      args.fromAddress = none →
      ∀ v, (envs 1).readOutcome .provider = .ok v →
        handleContractCall abiConfig envs args = .ok (processBigInt v)) ∧
    ((fragment.stateMutability = .nonpayable ∨ fragment.stateMutability = .payable) →
      ∀ fa, args.fromAddress = some fa → fa ≠ "" →
      (envs 1).walletOutcome fa = .ok () →
      ∀ (gas : Int) (tx : TxResponse) (gasUsed : Int),
        (envs 1).gasOutcome .provider = .ok gas →
        (envs 1).txOutcome .provider = .ok tx →
        (envs 1).waitOutcome .provider = .ok gasUsed →
        handleContractCall abiConfig envs args =
          .ok (processBigInt (.obj
            [(("transactionHash"), .str tx.hash),
              (("gasUsed"), .str (toString gasUsed)),
              (("blockNumber"), .num tx.blockNumber)]))) := by
  have hctorb : (args.functionName == "constructor") = false := by
    simp [hctor]
  refine ⟨?_, ?_, ?_⟩
  · intro hmut hfa
    have hmutb : (fragment.stateMutability == Mutability.view ||
        fragment.stateMutability == Mutability.pure) = false := by
      rcases hmut with h | h <;> rw [h] <;> rfl
    have hatt : (handleContractCallAttempt abiConfig (envs 1) args).1 =
        .error ("Write operations require fromAddress") := by
      simp [handleContractCallAttempt, contractCallCore, hprov, habi, hctorb, hfn,
        hmutb, hfa, truthyStr]
    have hclass : isNodeErrorContract ("Write operations require fromAddress") = false := by
      decide
    constructor
    · simp [handleContractCall, maxRetries, retryGo, hatt, hclass]
    · simp [handleContractCallAttemptCount, maxRetries, retryCount, hatt, hclass]
  · intro hmut hfa v hread
    have hmutb : (fragment.stateMutability == Mutability.view ||
        fragment.stateMutability == Mutability.pure) = true := by
      rcases hmut with h | h <;> rw [h] <;> rfl
    have hatt : (handleContractCallAttempt abiConfig (envs 1) args).1 =
        .ok (processBigInt v) := by
      simp [handleContractCallAttempt, contractCallCore, hprov, habi, hctorb, hfn,
        hmutb, hfa, truthyStr, hread]
    simp [handleContractCall, maxRetries, retryGo, hatt]
  · intro hmut fa hfa hfane hwallet gas tx gasUsed hgas htx hwait
    have hmutb : (fragment.stateMutability == Mutability.view ||
        fragment.stateMutability == Mutability.pure) = false := by
      rcases hmut with h | h <;> rw [h] <;> rfl
    have hfab : truthyStr (some fa) = true := by
      simp [truthyStr, hfane]
    have hatt : (handleContractCallAttempt abiConfig (envs 1) args).1 =
        .ok (processBigInt (.obj
          [(("transactionHash"), .str tx.hash),
            (("gasUsed"), .str (toString gasUsed)),
            (("blockNumber"), .num tx.blockNumber)])) := by
      simp [handleContractCallAttempt, contractCallCore, hprov, habi, hctorb, hfn,
        hmutb, hfab, hfa, hwallet, hgas, htx, hwait]
    simp [handleContractCall, maxRetries, retryGo, hatt]

/-- Witness for C5: `transfer` (nonpayable) without a signer yields the
missing-signer error in a single attempt; `balanceOf` (view) without a
signer returns the normalized read result. -/
theorem handleContractCall_fromAddress_requirement_witness :
    (handleContractCall abiTokenW envsAllOkW argsTransferW =
        .error ("Write operations require fromAddress") ∧
      handleContractCallAttemptCount abiTokenW envsAllOkW argsTransferW = 1) ∧
    handleContractCall abiTokenW envsAllOkW argsBalanceW =
      .ok (processBigInt (.bigint 123)) :=
  ⟨(handleContractCall_fromAddress_requirement abiTokenW envsAllOkW argsTransferW
        [⟨"balanceOf", .view⟩, ⟨"transfer", .nonpayable⟩] ⟨"transfer", .nonpayable⟩
        rfl rfl (by decide) rfl).1 (Or.inl rfl) rfl,
    (handleContractCall_fromAddress_requirement abiTokenW envsAllOkW argsBalanceW
        [⟨"balanceOf", .view⟩, ⟨"transfer", .nonpayable⟩] ⟨"balanceOf", .view⟩
        rfl rfl (by decide) rfl).2.1 (Or.inl rfl) rfl (.bigint 123) rfl⟩

/-- C8 (amended): once selection has succeeded, the contract name is
configured, and the wallet-construction step does not throw (no signer
given, or a value `new ethers.Wallet` accepts), a call with
`functionName = "constructor"` fails with the invalid-constructor-call
error regardless of the remaining parameters (address, params, `value`)
and of the ABI's contents, and the failure is not retried. -/
theorem handleContractCall_constructor_rejected
    (abiConfig : String → Option (List AbiFunction)) (envs : Nat → ContractEnv)
    (args : ContractCallArgs) (abiFunctions : List AbiFunction)
    (hprov : (envs 1).providerOutcome = .ok ())
    (habi : abiConfig args.contractName = some abiFunctions)
    (hctor : args.functionName = "constructor")
    (hwallet : truthyStr args.fromAddress = false ∨
      (envs 1).walletOutcome (args.fromAddress.getD ("")) = .ok ()) :
    handleContractCall abiConfig envs args =
        .error ("Cannot directly call constructor") ∧
      handleContractCallAttemptCount abiConfig envs args = 1 := by
  have hctorb : (args.functionName == "constructor") = true := by
    simp [hctor]
  have hatt : (handleContractCallAttempt abiConfig (envs 1) args).1 =
      .error ("Cannot directly call constructor") := by
    rcases hwallet with hwf | hwo
    · simp [handleContractCallAttempt, contractCallCore, hprov, habi, hctorb, hwf]
    · simp [handleContractCallAttempt, contractCallCore, hprov, habi, hctorb, hwo]
  have hclass : isNodeErrorContract ("Cannot directly call constructor") = false := by
    decide
  constructor
  · simp [handleContractCall, maxRetries, retryGo, hatt, hclass]
  · simp [handleContractCallAttemptCount, maxRetries, retryCount, hatt, hclass]

/-- Witness for C8 (amended) at a concrete constructor call. -/
theorem handleContractCall_constructor_rejected_witness :
    handleContractCall abiTokenW envsAllOkW argsCtorW =
        .error ("Cannot directly call constructor") ∧
      handleContractCallAttemptCount abiTokenW envsAllOkW argsCtorW = 1 :=
  handleContractCall_constructor_rejected abiTokenW envsAllOkW argsCtorW
    [⟨"balanceOf", .view⟩, ⟨"transfer", .nonpayable⟩] rfl rfl rfl (Or.inl rfl)

/-- Counterexample to C8 as stated: with `functionName =
"constructor"`, an unconfigured contract name makes the executor fail
with the ABI-not-found error, and a truthy non-key `fromAddress` makes
it fail with the wallet constructor's invalid-private-key error before
the constructor check is reached — in neither case with the
invalid-constructor-call error, so the failure is not independent of
the other parameters. -/
theorem handleContractCall_constructor_not_parameter_independent :
    handleContractCall abiTokenW envsAllOkW
        ⟨1, "0xC0", "nft", "constructor", [], none, 0⟩ =
      .error ("ABI configuration not found for contract nft") ∧
      ("ABI configuration not found for contract nft" : String) ≠
        ("Cannot directly call constructor") ∧
      handleContractCall abiTokenW envsWalletW
          ⟨1, "0xC0", "token", "constructor", [], some ("0xAAA"), 0⟩ =
        .error ("invalid private key") ∧
      ("invalid private key" : String) ≠ ("Cannot directly call constructor") := by
  exact ⟨rfl, by decide, rfl, by decide⟩

/-- C6: `processBigInt` is total and idempotent: applying it twice
yields the same value as applying it once; no arbitrary-precision
integer survives anywhere in its output; every bigint is replaced by
its exact decimal string representation; and the surrounding structure
(arrays, objects, and the other scalars) is preserved. -/
theorem processBigInt_idempotent_and_normalizing :
    (∀ v, processBigInt (processBigInt v) = processBigInt v) ∧
    (∀ v, hasBigInt (processBigInt v) = false) ∧
    (∀ n : Int, processBigInt (Value.bigint n) = Value.str (toString n)) ∧
    (∀ elems, processBigInt (Value.arr elems) = Value.arr (elems.map processBigInt)) ∧
    (∀ fields, processBigInt (Value.obj fields) =
      Value.obj (fields.map (fun kv => (kv.1, processBigInt kv.2)))) ∧
    (∀ s, processBigInt (Value.str s) = Value.str s) ∧
    (∀ n : Int, processBigInt (Value.num n) = Value.num n) ∧
    (∀ b, processBigInt (Value.bool b) = Value.bool b) ∧
    processBigInt Value.null = Value.null := by
  refine ⟨processBigInt_idem, hasBigInt_processBigInt, fun n => rfl, ?_, ?_,
    fun s => rfl, fun n => rfl, fun b => rfl, rfl⟩
  · intro elems
    simp [processBigInt, processBigIntList_eq_map]
  · intro fields
    simp [processBigInt, processBigIntFields_eq_map]

end RpcHandler
